import Mathlib

/-!
Shallow embedding of the alert dispatch pipeline of `src/main.py`
(`handle_alert` and its helpers).

The HTTP layer, logging and YAML parsing are external collaborators; the
embedding takes the already-parsed request (`List Alert`), the state of the
configuration source (`ConfigSource`: missing, present-but-unreadable, or
parsed; the restricted `Option Config` view covers the two states in which
no exception can arise from it), and an oracle
`world : String → SubprocBehavior` giving the behaviour of
`subprocess.run(cmd, shell=True, check=True, ..., timeout=60)` on each
command string.
-/

namespace AlertExecutor

/-- Helper for `pySplit`: walk the characters, cutting at each separator. -/
def splitCharAux (c : Char) : List Char → List Char → List String
  | [], acc => [String.mk acc.reverse]
  | x :: xs, acc =>
    if x == c then String.mk acc.reverse :: splitCharAux c xs []
    else splitCharAux c xs (x :: acc)

/-- Python `str.split(c)` for a single-character separator: cut the string
at every occurrence of `c`; `"".split(c) = [""]` and adjacent separators
produce empty segments, exactly as in Python. -/
def pySplit (c : Char) (s : String) : List String :=
  splitCharAux c s.toList []

/-- Python `str.strip()` with no argument: remove leading and trailing
whitespace. -/
def pyStrip (s : String) : String :=
  String.mk (((s.toList.dropWhile Char.isWhitespace).reverse.dropWhile
    Char.isWhitespace).reverse)

/-- Python `str.lower()` (the statuses compared here are ASCII, where
per-character lowercasing coincides with Python's). -/
def pyLower (s : String) : String :=
  String.mk (s.toList.map Char.toLower)

/-- One alert of the inbound batch (pydantic model `Alert`, main.py:32-36).
`labels` and `annotations` are string-to-string dicts, modelled as
association lists with unique keys; lookup takes the first binding. -/
structure Alert where
  status : String
  labels : List (String × String)
  annotations : List (String × String)
  generatorURL : String
  deriving DecidableEq, Repr

/-- The value of the `command` field of a configuration entry: in the YAML
it is either a single command string or a list of command strings
(main.py:113 and the `isinstance(command_to_run, list)` test at main.py:128). -/
inductive CmdVal where
  | str (s : String)
  | list (cmds : List String)
  deriving DecidableEq, Repr

/-- One entry of the `alert:` sequence of `alerts_config.yaml`: a single-key
mapping from an alert identifier to an object with an optional `command`
field (`item[alert_id].get("command")`, main.py:113, yields Python `None`
both when the field is absent and when it is explicitly null — both are
`none` here). -/
structure ConfigEntry where
  key : String
  command : Option CmdVal
  deriving DecidableEq, Repr

/-- The parsed configuration file: `config.get("alert", [])` (main.py:111). -/
structure Config where
  alert : List ConfigEntry
  deriving DecidableEq, Repr

/-- Behaviour of one `subprocess.run(cmd, shell=True, check=True, stdout=PIPE,
stderr=PIPE, text=True, timeout=60)` call (main.py:135-143): the spawned
shell either exits with a status code and captured streams, or exceeds the
timeout.  With `check=True` a non-zero exit surfaces as `CalledProcessError`
and a timeout as `TimeoutExpired`; on timeout `subprocess.run` kills the
child process before raising. -/
inductive SubprocBehavior where
  | exited (code : Nat) (stdout stderr : String)
  | timedOut
  deriving DecidableEq, Repr

/-- Whether a `subprocess.run` call leaves its spawned child process running
after it returns or raises: an exited process is gone by definition, and on
`TimeoutExpired` `subprocess.run` has already killed the child before
re-raising, so no branch of main.py:135-181 leaves a process behind. -/
def childLeftRunning : SubprocBehavior → Bool
  | .exited _ _ _ => false
  | .timedOut => false

/-- One record appended to `results` (main.py:91-94, 101-104, 118-122,
151-158, 164-171, 174-181): an `{alert, error}` record, an
`{alert, alert_id, warning}` record, or a full execution-result record
`{alert, alert_id, command, status, stdout, stderr}`. -/
inductive Entry where
  | err (alert error : String)
  | warn (alert alert_id warning : String)
  | res (alert alert_id command status stdout stderr : String)
  deriving DecidableEq, Repr

/-- `dict.get(key, default)` on a string-to-string dict (main.py:73). -/
def dictGet (d : List (String × String)) (key dflt : String) : String :=
  match d.find? (fun p => p.1 == key) with
  | some p => p.2
  | none => dflt

/-- `alert_name = alert.labels.get("alertname", "unknown")` (main.py:73). -/
def alertName (a : Alert) : String :=
  dictGet a.labels "alertname" "unknown"

/-- `parts = generator_url.split('/')` (main.py:84). -/
def urlParts (url : String) : List String :=
  pySplit '/' url

/-- Python `list.index(x)` (main.py:86), as an `Option`: index of the first
element equal to `x`, `none` when `x` does not occur (the `ValueError` case). -/
def listIndex (x : String) : List String → Option Nat
  | [] => none
  | y :: ys => if y == x then some 0 else (listIndex x ys).map (· + 1)

/-- Identifier extraction (main.py:84-95): split the URL on `/`, find the
first segment equal to `"grafana"`, return the following segment; `none`
when `"grafana"` is absent (`ValueError`) or is the last segment
(`IndexError` on `parts[grafana_index + 1]`). -/
def extract_alert_id (url : String) : Option String :=
  match listIndex "grafana" (urlParts url) with
  | none => none
  | some i => (urlParts url).get? (i + 1)

/-- The mapping lookup loop (main.py:110-114): scan the `alert:` entries in
order, and at the first entry whose key equals `alert_id` take its
`command` field (which may itself be absent, i.e. `none`) and `break`.
Both "no entry matches" and "first matching entry has no command field"
leave Python `command_to_run = None`, so both are `none` here. -/
def resolveCmd (entries : List ConfigEntry) (alert_id : String) : Option CmdVal :=
  match entries.find? (fun e => e.key == alert_id) with
  | some e => e.command
  | none => none

/-- Python truthiness of `command_to_run` as tested by
`if not command_to_run:` (main.py:116): `None`, the empty string and the
empty list are falsy, every other string or list is truthy. -/
def cmdTruthy : Option CmdVal → Bool
  | none => false
  | some (.str s) => !(s == "")
  | some (.list l) => !l.isEmpty

/-- Normalisation to a list (main.py:128-129): a bare string becomes a
one-element list, a list stays as it is. -/
def toCmdList : CmdVal → List String
  | .str s => [s]
  | .list l => l

/-- One command execution (main.py:132-181): run `cmd` through
`subprocess.run(..., shell=True, check=True, timeout=60)` and build the
result record.  Exit 0 → `status "success"` with both streams stripped;
non-zero exit (`CalledProcessError`) → `status "failed"` with the captured
streams stripped (empty string when a stream is empty); `TimeoutExpired` →
`status "timeout"` with empty stdout and the fixed stderr
`"Command timed out"`. -/
def run_command (world : String → SubprocBehavior)
    (name alert_id cmd : String) : Entry :=
  match world cmd with
  | .exited code out err =>
    if code == 0 then
      .res name alert_id cmd "success" (pyStrip out) (pyStrip err)
    else
      .res name alert_id cmd "failed" (pyStrip out) (pyStrip err)
  | .timedOut =>
    .res name alert_id cmd "timeout" "" "Command timed out"

/-- The `for cmd in command_to_run` loop (main.py:132): each command of the
list is executed in order, each appending one result record; no failure
short-circuits the remaining commands. -/
def runCommands (world : String → SubprocBehavior)
    (name alert_id : String) (cmds : List String) : List Entry :=
  cmds.map (run_command world name alert_id)

/-- The body of the per-alert loop (main.py:71-181) for one alert, over the
two configuration states that cannot raise: filter non-`firing` statuses
(after lower-casing), extract the identifier, check the configuration file
(`config = none` models a missing `alerts_config.yaml`, `some cfg` a
readable parsed one), resolve the command(s), and execute them.  The third
state — a file that exists but is unreadable, where `open()` at
main.py:107 raises — is covered by `process_alert_src` below. -/
def process_alert (config : Option Config) (world : String → SubprocBehavior)
    (a : Alert) : List Entry :=
  let alert_status := pyLower a.status
  let name := alertName a
  if alert_status != "firing" then
    []
  else
    match extract_alert_id a.generatorURL with
    | none => [.err name ("Invalid generatorURL format: " ++ a.generatorURL)]
    | some alert_id =>
      match config with
      | none => [.err name "Configuration file not found"]
      | some cfg =>
        let command_to_run := resolveCmd cfg.alert alert_id
        if !cmdTruthy command_to_run then
          [.warn name alert_id "No command found for this alert_id"]
        else
          match command_to_run with
          | some v => runCommands world name alert_id (toCmdList v)
          | none => [.warn name alert_id "No command found for this alert_id"]

/-- The whole request handler `handle_alert` (main.py:61-183): iterate the
alerts of the batch in order, each contributing its records to `results`;
every classified failure is a record, never an exception, so the request
always ends in the normal `{"results": results}` response. -/
def handle_alert (config : Option Config) (world : String → SubprocBehavior)
    (alerts : List Alert) : List Entry :=
  (alerts.map (process_alert config world)).flatten

/-- How many times processing one alert accesses the configuration source:
the `os.path.exists(config_path)` check plus the `open`/read at
main.py:98-108 sit inside the per-alert loop, after the status filter and
after identifier extraction, so each firing alert with an extractable
identifier performs one (fresh) access, and no other alert performs any. -/
def process_alert_reads (a : Alert) : Nat :=
  if pyLower a.status != "firing" then 0
  else
    match extract_alert_id a.generatorURL with
    | none => 0
    | some _ => 1

/-- Total number of configuration-source accesses performed while handling
one request (one batch). -/
def handle_alert_reads (alerts : List Alert) : Nat :=
  (alerts.map process_alert_reads).sum

/-- The three states of the configuration source `alerts_config.yaml` as
the code can encounter them: absent on disk (`os.path.exists` false,
main.py:99), present but unreadable (`open()` at main.py:107 raises
`OSError`/`PermissionError`), or present, readable and parsed. -/
inductive ConfigSource where
  | missing
  | unreadable
  | parsed (cfg : Config)
  deriving DecidableEq, Repr

/-- The HTTP-level outcome of one request: `ok` is the normal
`{"results": [...]}` 200 response (main.py:183), `serverError` the generic
500 produced by the outer `except Exception` when an unclassified
exception escapes the loop (main.py:185-187). -/
inductive Response where
  | ok (results : List Entry)
  | serverError
  deriving DecidableEq, Repr

/-- The per-alert loop body (main.py:71-181) over the full configuration
model.  With a missing or a parsed file it behaves exactly as
`process_alert`.  With a present-but-unreadable file, an alert that is
filtered out or fails extraction never reaches the configuration step,
but a firing alert with an extractable identifier passes the
`os.path.exists` check (main.py:99) and then `open()` at main.py:107
raises; no per-alert handler catches that, so the exception (modelled as
`.error`) escapes the loop body. -/
def process_alert_src (config : ConfigSource) (world : String → SubprocBehavior)
    (a : Alert) : Except String (List Entry) :=
  match config with
  | .missing => .ok (process_alert none world a)
  | .parsed cfg => .ok (process_alert (some cfg) world a)
  | .unreadable =>
    if pyLower a.status != "firing" then .ok []
    else
      match extract_alert_id a.generatorURL with
      | none => .ok [.err (alertName a) ("Invalid generatorURL format: " ++ a.generatorURL)]
      | some _ => .error "PermissionError"

/-- The `for alert in data.alerts` loop (main.py:71) with exception
propagation: a raised exception aborts the remaining iterations and
escapes to the outer handler. -/
def handle_alert_src (config : ConfigSource) (world : String → SubprocBehavior) :
    List Alert → Except String (List Entry)
  | [] => .ok []
  | a :: rest =>
    match process_alert_src config world a with
    | .error e => .error e
    | .ok entries =>
      match handle_alert_src config world rest with
      | .error e => .error e
      | .ok more => .ok (entries ++ more)

/-- The whole request handler (main.py:61-187): the loop wrapped in
`try/except Exception`, returning the normal aggregated response unless an
exception escaped, in which case the caller gets the generic 500
(`HTTPException(status_code=500)`). -/
def handle_request (config : ConfigSource) (world : String → SubprocBehavior)
    (alerts : List Alert) : Response :=
  match handle_alert_src config world alerts with
  | .ok rs => .ok rs
  | .error _ => .serverError

/-! ### Helper lemmas -/

theorem listIndex_eq_none_iff (x : String) :
    ∀ l : List String, listIndex x l = none ↔ x ∉ l
  | [] => by simp [listIndex]
  | y :: ys => by
    by_cases h : y = x
    · simp [listIndex, h]
    · simp [listIndex, h, listIndex_eq_none_iff x ys, Ne.symm h]

theorem listIndex_spec (x : String) :
    ∀ (l : List String) (i : Nat), listIndex x l = some i →
      l.get? i = some x ∧ ∀ j < i, l.get? j ≠ some x
  | [], i => by simp [listIndex]
  | y :: ys, i => by
    by_cases h : y = x
    · simp only [listIndex, h, beq_self_eq_true, if_true, Option.some.injEq]
      rintro rfl
      simp
    · simp only [listIndex, beq_iff_eq, h, if_false, Option.map_eq_some']
      rintro ⟨i', hi', rfl⟩
      obtain ⟨h1, h2⟩ := listIndex_spec x ys i' hi'
      refine ⟨by simpa using h1, ?_⟩
      intro j hj
      cases j with
      | zero => simpa using h
      | succ j' =>
        simpa using h2 j' (Nat.lt_of_succ_lt_succ hj)

theorem listIndex_eq_some_of_first (x : String) :
    ∀ (l : List String) (i : Nat), l.get? i = some x →
      (∀ j < i, l.get? j ≠ some x) → listIndex x l = some i
  | [], i => by simp
  | y :: ys, 0 => by
    intro h _
    simp only [List.get?_cons_zero, Option.some.injEq] at h
    simp [listIndex, h]
  | y :: ys, i + 1 => by
    intro h hfirst
    have hy : ¬(y = x) := by
      intro hyx
      exact hfirst 0 (Nat.succ_pos i) (by simp [hyx])
    have hys : listIndex x ys = some i := by
      refine listIndex_eq_some_of_first x ys i (by simpa using h) ?_
      intro j hj
      simpa using hfirst (j + 1) (Nat.succ_lt_succ hj)
    simp [listIndex, hy, hys]

theorem extract_alert_id_eq_some (url id : String)
    (h : extract_alert_id url = some id) :
    ∃ i, (urlParts url).get? i = some "grafana" ∧
      (∀ j < i, (urlParts url).get? j ≠ some "grafana") ∧
      (urlParts url).get? (i + 1) = some id := by
  unfold extract_alert_id at h
  cases hidx : listIndex "grafana" (urlParts url) with
  | none => simp [hidx] at h
  | some i =>
    rw [hidx] at h
    obtain ⟨h1, h2⟩ := listIndex_spec "grafana" (urlParts url) i hidx
    exact ⟨i, h1, h2, h⟩

theorem handle_alert_cons (config : Option Config)
    (world : String → SubprocBehavior) (a : Alert) (rest : List Alert) :
    handle_alert config world (a :: rest) =
      process_alert config world a ++ handle_alert config world rest := rfl

theorem process_alert_not_firing (config : Option Config)
    (world : String → SubprocBehavior) (a : Alert)
    (h : pyLower a.status ≠ "firing") :
    process_alert config world a = [] := by
  simp [process_alert, h]

theorem process_alert_extract_failed (config : Option Config)
    (world : String → SubprocBehavior) (a : Alert)
    (hf : pyLower a.status = "firing")
    (he : extract_alert_id a.generatorURL = none) :
    process_alert config world a =
      [.err (alertName a) ("Invalid generatorURL format: " ++ a.generatorURL)] := by
  simp [process_alert, hf, he]

theorem process_alert_no_config (world : String → SubprocBehavior) (a : Alert)
    (id : String) (hf : pyLower a.status = "firing")
    (he : extract_alert_id a.generatorURL = some id) :
    process_alert none world a = [.err (alertName a) "Configuration file not found"] := by
  simp [process_alert, hf, he]

theorem process_alert_falsy (cfg : Config) (world : String → SubprocBehavior)
    (a : Alert) (id : String) (hf : pyLower a.status = "firing")
    (he : extract_alert_id a.generatorURL = some id)
    (hc : cmdTruthy (resolveCmd cfg.alert id) = false) :
    process_alert (some cfg) world a =
      [.warn (alertName a) id "No command found for this alert_id"] := by
  simp only [process_alert, hf, bne_self_eq_false, Bool.false_eq_true, if_false, he, hc,
    Bool.not_false, if_true]

theorem process_alert_exec (cfg : Config) (world : String → SubprocBehavior)
    (a : Alert) (id : String) (v : CmdVal) (hf : pyLower a.status = "firing")
    (he : extract_alert_id a.generatorURL = some id)
    (hr : resolveCmd cfg.alert id = some v) (hv : cmdTruthy (some v) = true) :
    process_alert (some cfg) world a =
      runCommands world (alertName a) id (toCmdList v) := by
  simp only [process_alert, hf, bne_self_eq_false, Bool.false_eq_true, if_false, he, hr, hv,
    Bool.not_true, if_false]

theorem resolveCmd_first_match (pre post : List ConfigEntry) (e : ConfigEntry)
    (id : String) (hk : e.key = id) (hpre : ∀ e' ∈ pre, e'.key ≠ id) :
    resolveCmd (pre ++ e :: post) id = e.command := by
  unfold resolveCmd
  have h1 : pre.find? (fun e' => e'.key == id) = none := by
    rw [List.find?_eq_none]
    intro e' he'
    simpa using hpre e' he'
  rw [List.find?_append, h1, Option.none_or, List.find?_cons]
  simp [hk]

theorem resolveCmd_no_match (entries : List ConfigEntry) (id : String)
    (h : ∀ e ∈ entries, e.key ≠ id) : resolveCmd entries id = none := by
  unfold resolveCmd
  have h1 : entries.find? (fun e' => e'.key == id) = none := by
    rw [List.find?_eq_none]
    intro e' he'
    simpa using h e' he'
  rw [h1]

theorem handle_alert_src_missing (world : String → SubprocBehavior) :
    ∀ alerts : List Alert, handle_alert_src .missing world alerts
      = .ok (handle_alert none world alerts)
  | [] => rfl
  | a :: rest => by
    simp only [handle_alert_src, process_alert_src,
      handle_alert_src_missing world rest, handle_alert_cons]

theorem handle_alert_src_parsed (cfg : Config) (world : String → SubprocBehavior) :
    ∀ alerts : List Alert, handle_alert_src (.parsed cfg) world alerts
      = .ok (handle_alert (some cfg) world alerts)
  | [] => rfl
  | a :: rest => by
    simp only [handle_alert_src, process_alert_src,
      handle_alert_src_parsed cfg world rest, handle_alert_cons]

theorem process_alert_src_unreadable_cases (world : String → SubprocBehavior)
    (b : Alert) :
    (∃ l, process_alert_src .unreadable world b = .ok l)
    ∨ process_alert_src .unreadable world b = .error "PermissionError" := by
  unfold process_alert_src
  by_cases h : (pyLower b.status != "firing") = true
  · exact Or.inl ⟨[], by simp [h]⟩
  · cases he : extract_alert_id b.generatorURL with
    | none =>
      exact Or.inl ⟨[.err (alertName b)
        ("Invalid generatorURL format: " ++ b.generatorURL)], by simp [h, he]⟩
    | some id => exact Or.inr (by simp [h, he])

theorem handle_alert_src_unreadable_error (world : String → SubprocBehavior)
    (a : Alert) (id : String) (hf : pyLower a.status = "firing")
    (he : extract_alert_id a.generatorURL = some id) :
    ∀ alerts : List Alert, a ∈ alerts →
      handle_alert_src .unreadable world alerts = .error "PermissionError" := by
  intro alerts
  induction alerts with
  | nil => intro h; cases h
  | cons b rest ih =>
    intro hmem
    rcases List.mem_cons.mp hmem with rfl | hmem'
    · have ha : process_alert_src .unreadable world a = .error "PermissionError" := by
        simp [process_alert_src, hf, he]
      simp [handle_alert_src, ha]
    · rcases process_alert_src_unreadable_cases world b with ⟨l, hb⟩ | hb
      · simp [handle_alert_src, hb, ih hmem']
      · simp [handle_alert_src, hb]

/-! ### Claim theorems -/

/-- C1: Identifier extraction splits the generatorURL on `/`, scans for the
first segment exactly equal to `"grafana"`, and succeeds exactly when that
first `"grafana"` segment has a following segment, returning it (soundness
and completeness); if no segment equals `"grafana"`, or the first such
segment is the last segment, extraction fails, the firing alert's response
entry is the error record carrying the original URL, and processing
continues with the next alert. -/
theorem C1_grafana_extraction (url : String) :
    (∀ id, extract_alert_id url = some id →
      ∃ i, (urlParts url).get? i = some "grafana" ∧
        (∀ j < i, (urlParts url).get? j ≠ some "grafana") ∧
        (urlParts url).get? (i + 1) = some id)
    ∧ (∀ i id, (urlParts url).get? i = some "grafana" →
        (∀ j < i, (urlParts url).get? j ≠ some "grafana") →
        (urlParts url).get? (i + 1) = some id →
        extract_alert_id url = some id)
    ∧ (("grafana" ∉ urlParts url ∨
        ∃ i, (urlParts url).get? i = some "grafana" ∧
          (∀ j < i, (urlParts url).get? j ≠ some "grafana") ∧
          i + 1 = (urlParts url).length) →
      extract_alert_id url = none)
    ∧ (∀ (config : Option Config) (world : String → SubprocBehavior)
        (a : Alert) (rest : List Alert),
        a.generatorURL = url → pyLower a.status = "firing" →
        extract_alert_id url = none →
        handle_alert config world (a :: rest) =
          Entry.err (alertName a) ("Invalid generatorURL format: " ++ url)
            :: handle_alert config world rest) := by
  refine ⟨fun id h => extract_alert_id_eq_some url id h, ?_, ?_, ?_⟩
  · intro i id h1 h2 h3
    unfold extract_alert_id
    rw [listIndex_eq_some_of_first "grafana" (urlParts url) i h1 h2]
    exact h3
  · rintro (h | ⟨i, h1, h2, h3⟩)
    · unfold extract_alert_id
      rw [(listIndex_eq_none_iff "grafana" (urlParts url)).2 h]
    · unfold extract_alert_id
      rw [listIndex_eq_some_of_first "grafana" (urlParts url) i h1 h2]
      exact List.get?_eq_none.2 (le_of_eq h3.symm)
  · intro config world a rest hurl hf he
    rw [handle_alert_cons,
      process_alert_extract_failed config world a hf (hurl ▸ he), hurl,
      List.singleton_append]

theorem C1_grafana_extraction_witness :
    (∃ i, (urlParts "http://h/grafana/42/view").get? i = some "grafana" ∧
      (∀ j < i, (urlParts "http://h/grafana/42/view").get? j ≠ some "grafana") ∧
      (urlParts "http://h/grafana/42/view").get? (i + 1) = some "42")
    ∧ extract_alert_id "http://h/grafana/42/view" = some "42" :=
  ⟨(C1_grafana_extraction "http://h/grafana/42/view").1 "42" (by decide),
   (C1_grafana_extraction "http://h/grafana/42/view").2.1 3 "42"
     (by decide) (by decide) (by decide)⟩

/-- C2: An alert contributes entries to the response only if its status,
lower-cased, equals exactly `"firing"`; any other status (including
`"firing "` with trailing whitespace — lower-casing does not trim)
contributes zero entries and produces no error. -/
theorem C2_firing_filter (a : Alert) (config : Option Config)
    (world : String → SubprocBehavior) (rest : List Alert)
    (h : pyLower a.status ≠ "firing") :
    process_alert config world a = []
    ∧ handle_alert config world (a :: rest) = handle_alert config world rest := by
  refine ⟨process_alert_not_firing config world a h, ?_⟩
  rw [handle_alert_cons, process_alert_not_firing config world a h, List.nil_append]

theorem C2_firing_filter_witness :
    process_alert (some ⟨[⟨"42", some (.str "echo ok")⟩]⟩) (fun _ => .timedOut)
      ⟨"firing ", [("alertname", "test")], [], "http://host/grafana/42/view"⟩ = [] :=
  (C2_firing_filter
    ⟨"firing ", [("alertname", "test")], [], "http://host/grafana/42/view"⟩
    (some ⟨[⟨"42", some (.str "echo ok")⟩]⟩) (fun _ => .timedOut) [] (by decide)).1

/-- C3: Resolution returns the command value of the first mapping entry
whose key equals the identifier — later entries, including duplicates of
the same key, are never consulted — and when no entry's key matches, the
firing alert's response entry is the warning record
`{alert, alert_id, warning}` and no command is executed. -/
theorem C3_first_match_wins :
    (∀ (pre post : List ConfigEntry) (e : ConfigEntry) (id : String),
      e.key = id → (∀ e' ∈ pre, e'.key ≠ id) →
      resolveCmd (pre ++ e :: post) id = e.command)
    ∧ (∀ (cfg : Config) (world : String → SubprocBehavior) (a : Alert)
        (id : String), pyLower a.status = "firing" →
      extract_alert_id a.generatorURL = some id →
      (∀ e ∈ cfg.alert, e.key ≠ id) →
      process_alert (some cfg) world a =
        [.warn (alertName a) id "No command found for this alert_id"]) := by
  refine ⟨fun pre post e id hk hpre => resolveCmd_first_match pre post e id hk hpre, ?_⟩
  intro cfg world a id hf he hnone
  exact process_alert_falsy cfg world a id hf he
    (by rw [resolveCmd_no_match cfg.alert id hnone]; rfl)

theorem C3_first_match_wins_witness :
    resolveCmd [⟨"1", some (.str "a")⟩, ⟨"42", some (.str "x")⟩,
      ⟨"42", some (.str "y")⟩] "42" = some (.str "x") :=
  C3_first_match_wins.1 [⟨"1", some (.str "a")⟩] [⟨"42", some (.str "y")⟩]
    ⟨"42", some (.str "x")⟩ "42" rfl (by decide)

/-- C4 as stated is false for the "unreadable" half of "missing or
unreadable": with a configuration file that exists but cannot be read,
the firing alert's `open()` raises, no per-alert error record is produced,
and the request ends in the generic 500 server failure instead of a normal
aggregated response. -/
theorem C4_counterexample :
    handle_request .unreadable (fun _ => .timedOut)
      [⟨"firing", [("alertname", "test")], [], "http://host/grafana/42/view"⟩]
      = Response.serverError
    ∧ Response.serverError
      ≠ .ok [Entry.err "test" "Configuration file not found"] := by
  decide

/-- C4 (amended): a MISSING configuration file yields the per-alert error
record `{alert, error: "Configuration file not found"}` for each firing
alert with an extractable identifier, the remaining alerts are still
processed, and the request completes with the normal aggregated response;
a configuration file that exists but is UNREADABLE instead makes `open()`
raise, aborting the whole batch, and the request ends in the generic 500
server failure. -/
theorem C4_missing_vs_unreadable (a : Alert) (world : String → SubprocBehavior)
    (rest : List Alert) (id : String)
    (hf : pyLower a.status = "firing")
    (he : extract_alert_id a.generatorURL = some id) :
    handle_alert none world (a :: rest) =
      Entry.err (alertName a) "Configuration file not found"
        :: handle_alert none world rest
    ∧ handle_request .missing world (a :: rest) =
        .ok (Entry.err (alertName a) "Configuration file not found"
          :: handle_alert none world rest)
    ∧ (∀ alerts : List Alert, a ∈ alerts →
        handle_request .unreadable world alerts = Response.serverError) := by
  have h1 : handle_alert none world (a :: rest) =
      Entry.err (alertName a) "Configuration file not found"
        :: handle_alert none world rest := by
    rw [handle_alert_cons, process_alert_no_config world a id hf he,
      List.singleton_append]
  refine ⟨h1, ?_, ?_⟩
  · unfold handle_request
    rw [handle_alert_src_missing world (a :: rest), h1]
  · intro alerts hmem
    unfold handle_request
    rw [handle_alert_src_unreadable_error world a id hf he alerts hmem]

theorem C4_missing_vs_unreadable_witness :
    handle_request .missing (fun _ => .timedOut)
      [⟨"firing", [("alertname", "test")], [], "http://host/grafana/42/view"⟩]
      = .ok [Entry.err "test" "Configuration file not found"]
    ∧ handle_request .unreadable (fun _ => .timedOut)
      [⟨"firing", [("alertname", "test")], [], "http://host/grafana/42/view"⟩]
      = Response.serverError :=
  ⟨(C4_missing_vs_unreadable
      ⟨"firing", [("alertname", "test")], [], "http://host/grafana/42/view"⟩
      (fun _ => .timedOut) [] "42" (by decide) (by decide)).2.1,
   (C4_missing_vs_unreadable
      ⟨"firing", [("alertname", "test")], [], "http://host/grafana/42/view"⟩
      (fun _ => .timedOut) [] "42" (by decide) (by decide)).2.2
     [⟨"firing", [("alertname", "test")], [], "http://host/grafana/42/view"⟩]
     (List.mem_singleton.mpr rfl)⟩

/-- C5: A command whose process exits non-zero produces a normal result
record with outcome `"failed"` and the stripped streams — no exception
propagates — and every later command of the same alert and every later
alert of the batch is still executed. -/
theorem C5_failed_command (world : String → SubprocBehavior)
    (name id cmd out err : String) (code : Nat)
    (cmds1 cmds2 : List String) (config : Option Config) (a : Alert)
    (rest : List Alert)
    (hw : world cmd = .exited code out err) (hc : code ≠ 0) :
    run_command world name id cmd =
      .res name id cmd "failed" (pyStrip out) (pyStrip err)
    ∧ runCommands world name id (cmds1 ++ cmd :: cmds2) =
        runCommands world name id cmds1
          ++ run_command world name id cmd :: runCommands world name id cmds2
    ∧ handle_alert config world (a :: rest) =
        process_alert config world a ++ handle_alert config world rest := by
  refine ⟨?_, ?_, handle_alert_cons config world a rest⟩
  · simp [run_command, hw, hc]
  · simp [runCommands]

theorem C5_failed_command_witness :
    run_command (fun _ => .exited 1 " out " "") "n" "i" "c"
      = .res "n" "i" "c" "failed" "out" "" :=
  (C5_failed_command (fun _ => .exited 1 " out " "") "n" "i" "c" " out " "" 1
    [] [] none ⟨"firing", [], [], ""⟩ [] rfl (by decide)).1

/-- C6: A command exceeding the timeout produces a result record with
outcome `"timeout"`, empty stdout and the fixed stderr
`"Command timed out"`, and the spawned process is not left running
(`subprocess.run` kills the child before raising `TimeoutExpired`). -/
theorem C6_timeout_command (world : String → SubprocBehavior)
    (name id cmd : String) (hw : world cmd = .timedOut) :
    run_command world name id cmd =
      .res name id cmd "timeout" "" "Command timed out"
    ∧ childLeftRunning (world cmd) = false := by
  constructor
  · simp [run_command, hw]
  · rw [hw]
    rfl

theorem C6_timeout_command_witness :
    run_command (fun _ => .timedOut) "n" "i" "sleep 100"
      = .res "n" "i" "sleep 100" "timeout" "" "Command timed out" :=
  (C6_timeout_command (fun _ => .timedOut) "n" "i" "sleep 100" rfl).1

/-- C7: A command whose process exits 0 produces a result record with
outcome `"success"` regardless of the content of stderr, with both streams
captured and stripped of surrounding whitespace. -/
theorem C7_success_command (world : String → SubprocBehavior)
    (name id cmd out err : String) (hw : world cmd = .exited 0 out err) :
    run_command world name id cmd =
      .res name id cmd "success" (pyStrip out) (pyStrip err) := by
  simp [run_command, hw]

theorem C7_success_command_witness :
    run_command (fun _ => .exited 0 "ok\n" "some warning") "n" "i" "c"
      = .res "n" "i" "c" "success" "ok" "some warning" :=
  C7_success_command (fun _ => .exited 0 "ok\n" "some warning")
    "n" "i" "c" "ok\n" "some warning" rfl

/-- C8 as stated is false at the empty command string: a mapping entry with
command `""` is treated as missing (Python `not ""` is true, so the alert
gets the warning record), while an entry with command `[""]` passes the
truthiness test and the empty command is executed, yielding an execution
result record. -/
theorem C8_counterexample :
    process_alert (some ⟨[⟨"42", some (.str "")⟩]⟩) (fun _ => .exited 0 "" "")
      ⟨"firing", [("alertname", "test")], [], "http://host/grafana/42/view"⟩
    ≠ process_alert (some ⟨[⟨"42", some (.list [""])⟩]⟩) (fun _ => .exited 0 "" "")
      ⟨"firing", [("alertname", "test")], [], "http://host/grafana/42/view"⟩ := by
  decide

/-- C8 (amended): for every NON-EMPTY command string `c`, a mapping entry
resolving to the single string `c` and one resolving to the one-element
list `[c]` produce identical dispatch behaviour and identical response
entries. -/
theorem C8_singleton_normalization (a : Alert) (world : String → SubprocBehavior)
    (cfg1 cfg2 : Config) (id c : String) (hc : c ≠ "")
    (h1 : resolveCmd cfg1.alert id = some (.str c))
    (h2 : resolveCmd cfg2.alert id = some (.list [c]))
    (he : extract_alert_id a.generatorURL = some id) :
    process_alert (some cfg1) world a = process_alert (some cfg2) world a := by
  by_cases hf : pyLower a.status = "firing"
  · have hv1 : cmdTruthy (some (.str c)) = true := by simp [cmdTruthy, hc]
    have hv2 : cmdTruthy (some (.list [c])) = true := by simp [cmdTruthy]
    rw [process_alert_exec cfg1 world a id (.str c) hf he h1 hv1,
      process_alert_exec cfg2 world a id (.list [c]) hf he h2 hv2]
    rfl
  · rw [process_alert_not_firing _ world a hf,
      process_alert_not_firing _ world a hf]

theorem C8_singleton_normalization_witness :
    process_alert (some ⟨[⟨"42", some (.str "echo ok")⟩]⟩)
      (fun _ => .exited 0 "ok" "")
      ⟨"firing", [("alertname", "test")], [], "http://host/grafana/42/view"⟩
    = process_alert (some ⟨[⟨"42", some (.list ["echo ok"])⟩]⟩)
      (fun _ => .exited 0 "ok" "")
      ⟨"firing", [("alertname", "test")], [], "http://host/grafana/42/view"⟩ :=
  C8_singleton_normalization
    ⟨"firing", [("alertname", "test")], [], "http://host/grafana/42/view"⟩
    (fun _ => .exited 0 "ok" "")
    ⟨[⟨"42", some (.str "echo ok")⟩]⟩ ⟨[⟨"42", some (.list ["echo ok"])⟩]⟩
    "42" "echo ok" (by decide) (by decide) (by decide) (by decide)

/-- C9 as stated is false: the existence check and read of
`alerts_config.yaml` sit inside the per-alert loop (main.py:98-108), so a
single request whose batch has two firing alerts with extractable
identifiers accesses the configuration source twice, not once. -/
theorem C9_counterexample :
    handle_alert_reads
      [⟨"firing", [("alertname", "a1")], [], "http://host/grafana/1/view"⟩,
       ⟨"firing", [("alertname", "a2")], [], "http://host/grafana/2/view"⟩] = 2
    ∧ (2 : Nat) ≠ 1 := by decide

/-- C9 (amended): within one request the configuration source is read once
per firing alert with an extractable identifier (freshly on each access,
nothing cached), rather than once per request or per process lifetime. -/
theorem C9_reads_per_alert (alerts : List Alert) :
    handle_alert_reads alerts =
      (alerts.filter (fun a => pyLower a.status == "firing"
        && (extract_alert_id a.generatorURL).isSome)).length := by
  induction alerts with
  | nil => rfl
  | cons a rest ih =>
    have hh : handle_alert_reads (a :: rest)
        = process_alert_reads a + handle_alert_reads rest := rfl
    rw [hh, ih]
    by_cases hf : pyLower a.status = "firing"
    · cases he : extract_alert_id a.generatorURL with
      | none => simp [process_alert_reads, hf, he, List.filter_cons]
      | some id =>
        simp [process_alert_reads, hf, he, List.filter_cons, Nat.add_comm]
    · simp [process_alert_reads, hf, List.filter_cons]

/-- C10: a firing alert whose identifier matches a first mapping entry
whose command value is absent/null, the empty string, or the empty list
gets the mapping-miss warning record — exactly the record produced when no
entry matches at all — and no command is executed. -/
theorem C10_falsy_command_warning (cfg : Config)
    (world : String → SubprocBehavior) (a : Alert) (id : String)
    (pre post : List ConfigEntry) (e : ConfigEntry)
    (hf : pyLower a.status = "firing")
    (he : extract_alert_id a.generatorURL = some id)
    (hsplit : cfg.alert = pre ++ e :: post)
    (hpre : ∀ e' ∈ pre, e'.key ≠ id)
    (hk : e.key = id)
    (hcmd : e.command = none ∨ e.command = some (.str "")
      ∨ e.command = some (.list [])) :
    process_alert (some cfg) world a =
      [.warn (alertName a) id "No command found for this alert_id"]
    ∧ ∀ cfg' : Config, (∀ e' ∈ cfg'.alert, e'.key ≠ id) →
        process_alert (some cfg') world a = process_alert (some cfg) world a := by
  have hres : resolveCmd cfg.alert id = e.command := by
    rw [hsplit]
    exact resolveCmd_first_match pre post e id hk hpre
  have hfalsy : cmdTruthy (resolveCmd cfg.alert id) = false := by
    rw [hres]
    rcases hcmd with h | h | h <;> rw [h] <;> rfl
  have hmain := process_alert_falsy cfg world a id hf he hfalsy
  refine ⟨hmain, fun cfg' hnone => ?_⟩
  rw [hmain]
  exact process_alert_falsy cfg' world a id hf he
    (by rw [resolveCmd_no_match cfg'.alert id hnone]; rfl)

theorem C10_falsy_command_warning_witness :
    process_alert (some ⟨[⟨"42", none⟩]⟩) (fun _ => .timedOut)
      ⟨"firing", [("alertname", "test")], [], "http://host/grafana/42/view"⟩
      = [Entry.warn "test" "42" "No command found for this alert_id"] :=
  (C10_falsy_command_warning ⟨[⟨"42", none⟩]⟩ (fun _ => .timedOut)
    ⟨"firing", [("alertname", "test")], [], "http://host/grafana/42/view"⟩ "42"
    [] [] ⟨"42", none⟩ (by decide) (by decide) rfl (by simp) rfl (Or.inl rfl)).1

end AlertExecutor
